import Mathlib

/-!
Verification development for the Oppia third-party dependency installer
(`scripts/install_dependencies_json_packages.py`).

The Python script is shallowly embedded as follows:
* a dependency entry (a JSON object) is an association list from key names
  to values (strings or lists of strings);
* the manifest is a list of categories, each holding named entries;
* process termination (`sys.exit(1)`, uncaught exceptions) is an
  `Except PyErr` result; an uncaught Python exception also terminates the
  process with exit status 1, captured by `pyExitCode`;
* filesystem and network side effects are an explicit list of `Effect`
  events together with a set (list) of existing filesystem paths;
* archive extraction, whose outcome depends on the downloaded bytes, is an
  oracle parameter (`ExtractOutcome`) giving, per source URL, whether each
  extraction attempt succeeds and which paths it materialises.
-/

namespace OppiaDeps

/-- A JSON value stored under a key of a dependency entry: the manifest only
uses strings and lists of strings (the `files` key). -/
inductive EntryVal where
  | str (s : String)
  | strList (ss : List String)
deriving DecidableEq

/-- A dependency entry: a JSON object, embedded as an association list. -/
abbrev DependencyDict := List (String × EntryVal)

/-- The manifest: category name to named dependency entries
(`dependencies.json`, top-level key "dependencies"). -/
abbrev Manifest := List (String × List (String × DependencyDict))

/-- `list(dependency_dict.keys())`. -/
def keysOf (d : DependencyDict) : List String := d.map Prod.fst

/-- Python dict lookup `d[k]` as an option. -/
def lookupVal (d : DependencyDict) (k : String) : Option EntryVal :=
  (d.find? (fun p => p.1 == k)).map Prod.snd

/-- Abnormal process termination: `sys.exit(code)` or an uncaught
exception. -/
inductive PyErr where
  | exited (code : Nat)
  | exn (msg : String)
deriving DecidableEq

/-- The exit status of the process for an abnormal termination: `sys.exit(n)`
exits with `n`; an uncaught Python exception exits with status 1. -/
def pyExitCode : PyErr → Nat
  | .exited n => n
  | .exn _ => 1

/-- `dependency_dict[k]` expected to be a string (missing key raises
`KeyError`; a non-string value raises when used as a string). -/
def getStr (d : DependencyDict) (k : String) : Except PyErr String :=
  match lookupVal d k with
  | some (.str s) => .ok s
  | some (.strList _) => .error (.exn "TypeError")
  | none => .error (.exn "KeyError")

/-- `dependency_dict[k]` expected to be a list of strings. -/
def getList (d : DependencyDict) (k : String) : Except PyErr (List String) :=
  match lookupVal d k with
  | some (.strList l) => .ok l
  | some (.str _) => .error (.exn "AssertionError")
  | none => .error (.exn "KeyError")

/-- The `DownloadFormatType` literal type: `'zip' | 'files' | 'tar'`. -/
inductive DownloadFormatType where
  | zip
  | files
  | tar
deriving DecidableEq

/-- `download_format == _DOWNLOAD_FORMAT_ZIP`. -/
def isZipFormat : DownloadFormatType → Bool
  | .zip => true
  | _ => false

/-- `download_format == _DOWNLOAD_FORMAT_TAR`. -/
def isTarFormat : DownloadFormatType → Bool
  | .tar => true
  | _ => false

/-- Indexing `DOWNLOAD_FORMATS_TO_DEPENDENCIES_KEYS` by a raw downloadFormat
string: `None` models the `KeyError` for an unknown format tag. -/
def parseFormat? (s : String) : Option DownloadFormatType :=
  if s = "zip" then some .zip
  else if s = "files" then some .files
  else if s = "tar" then some .tar
  else none

/-- `DOWNLOAD_FORMATS_TO_DEPENDENCIES_KEYS[fmt]['mandatory_keys']`. -/
def mandatoryKeys : DownloadFormatType → List String
  | .zip => ["version", "url", "downloadFormat"]
  | .files => ["version", "url", "files", "targetDirPrefix", "downloadFormat"]
  | .tar =>
      ["version", "url", "tarRootDirPrefix", "targetDirPrefix",
       "downloadFormat"]

/-- `DOWNLOAD_FORMATS_TO_DEPENDENCIES_KEYS[fmt]['optional_key_pairs']`. -/
def optionalKeyPairs : DownloadFormatType → List (List String)
  | .zip => [["rootDir", "rootDirPrefix"], ["targetDir", "targetDirPrefix"]]
  | .files => []
  | .tar => []

/-- The loop `for key in mandatory_keys: if key not in keys: ... sys.exit(1)`. -/
def checkMandatory (mks : List String) (keys : List String) :
    Except PyErr Unit :=
  match mks with
  | [] => .ok ()
  | k :: rest =>
      if keys.contains k then checkMandatory rest keys
      else .error (.exited 1)

/-- The loop over `optional_key_pairs`: for each pair, the number of its
members present as keys must be exactly one, otherwise `sys.exit(1)`. -/
def checkPairs (ps : List (List String)) (keys : List String) :
    Except PyErr Unit :=
  match ps with
  | [] => .ok ()
  | p :: rest =>
      if (p.filter (fun k => keys.contains k)).length = 1 then
        checkPairs rest keys
      else .error (.exited 1)

/-- `s.endswith(post)`, computed on the character lists. -/
def endsWithS (s post : String) : Bool :=
  post.toList.isSuffixOf s.toList

/-- `s.rpartition(c)[0]`: everything before the LAST occurrence of `c`;
the empty string when `c` does not occur (as in Python). -/
def rpartitionBefore (s : String) (c : Char) : String :=
  String.mk ((((s.toList.reverse).dropWhile (fun x => !(x == c))).drop 1).reverse)

/-- Lines 323-325: `dependency_url = dependency_dict['url']`, then if it
contains `'#'`, replace it by `dependency_url.rpartition('#')[0]`. -/
def stripFragment (url : String) : String :=
  if url.toList.contains '#' then rpartitionBefore url '#' else url

/-- The condition of lines 328-331 that makes the URL/format consistency
check call `sys.exit(1)`, applied to the (fragment-stripped) URL. -/
def urlSyntaxFails (ty : DownloadFormatType) (u : String) : Bool :=
  (endsWithS u ".zip" && !(isZipFormat ty)) ||
  (isZipFormat ty && !(endsWithS u ".zip")) ||
  (endsWithS u ".tar.gz" && !(isTarFormat ty)) ||
  (isTarFormat ty && !(endsWithS u ".tar.gz"))

/-- `test_dependencies_syntax(dependency_type, dependency_dict)`: mandatory
keys, then optional key pairs, then the URL-suffix/format consistency check
on the fragment-stripped URL.  `Except.ok ()` is a normal return; any
`Except.error` is abnormal process termination. -/
def test_dependencies_syntax (ty : DownloadFormatType) (d : DependencyDict) :
    Except PyErr Unit :=
  match checkMandatory (mandatoryKeys ty) (keysOf d) with
  | .error e => .error e
  | .ok _ =>
  match checkPairs (optionalKeyPairs ty) (keysOf d) with
  | .error e => .error e
  | .ok _ =>
  match lookupVal d "url" with
  | none => .error (.exn "KeyError")
  | some (.strList _) => .error (.exn "AttributeError")
  | some (.str u) =>
      if urlSyntaxFails ty (stripFragment u) then .error (.exited 1)
      else .ok ()

/-- Body of the inner loop of `validate_dependencies`: raise when
`downloadFormat` is absent, otherwise run the syntax test for the declared
format (an unknown format string raises `KeyError` when indexing the
formats table). -/
def validateEntry (d : DependencyDict) : Except PyErr Unit :=
  match lookupVal d "downloadFormat" with
  | none => .error (.exn "downloadFormat not specified")
  | some (.strList _) => .error (.exn "TypeError")
  | some (.str s) =>
      match parseFormat? s with
      | some ty => test_dependencies_syntax ty d
      | none => .error (.exn "KeyError")

/-- The inner loop of `validate_dependencies` over one category's entries. -/
def validateCategory : List (String × DependencyDict) → Except PyErr Unit
  | [] => .ok ()
  | (_, d) :: rest =>
      match validateEntry d with
      | .ok _ => validateCategory rest
      | .error e => .error e

/-- `validate_dependencies(filepath)` on the parsed manifest. -/
def validate_dependencies : Manifest → Except PyErr Unit
  | [] => .ok ()
  | (_, es) :: rest =>
      match validateCategory es with
      | .ok _ => validate_dependencies rest
      | .error e => .error e

/-- Membership of an entry in the manifest (in some category, under some
name). -/
def entryMem (d : DependencyDict) (m : Manifest) : Prop :=
  ∃ c ∈ m, ∃ p ∈ c.2, p.2 = d

/-! ## Filesystem / network effect model for the fetchers -/

/-- An observable side effect of the installer. -/
inductive Effect where
  | ensureDir (d : String)
  | retrieve (url : String) (dest : String)
  | uaFetch (url : String)
  | removeFile (p : String)
  | rename (src : String) (dst : String)
deriving DecidableEq

/-- `os.path.join(a, b)` for the relative paths this script uses. -/
def pj (a b : String) : String := a ++ "/" ++ b

/-- `TMP_UNZIP_PATH = os.path.join('.', 'tmp_unzip.zip')`. -/
def TMP_UNZIP_PATH : String := pj "." "tmp_unzip.zip"

/-- `TOOLS_DIR = os.path.join('..', 'oppia_tools')`. -/
def TOOLS_DIR : String := pj ".." "oppia_tools"

/-- `THIRD_PARTY_DIR = os.path.join('.', 'third_party')`. -/
def THIRD_PARTY_DIR : String := pj "." "third_party"

/-- `THIRD_PARTY_STATIC_DIR = os.path.join(THIRD_PARTY_DIR, 'static')`. -/
def THIRD_PARTY_STATIC_DIR : String := pj THIRD_PARTY_DIR "static"

/-- `TARGET_DOWNLOAD_DIRS[category]`; `none` models the `KeyError` on an
unknown category. -/
def TARGET_DOWNLOAD_DIRS (cat : String) : Option String :=
  if cat = "proto" then some THIRD_PARTY_DIR
  else if cat = "frontend" then some THIRD_PARTY_STATIC_DIR
  else if cat = "oppiaTools" then some TOOLS_DIR
  else none

/-- Add a path to the set of existing paths. -/
def addPath (fs : List String) (p : String) : List String :=
  if fs.contains p then fs else p :: fs

/-- Add several paths. -/
def addPaths (fs : List String) (ps : List String) : List String :=
  ps.foldl addPath fs

/-- `os.remove(p)` on the set of existing paths. -/
def removePath (fs : List String) (p : String) : List String :=
  fs.filter (fun q => q != p)

/-- Drop the first `n` characters of a string. -/
def strDropChars (s : String) (n : Nat) : String :=
  String.mk (s.toList.drop n)

/-- `os.rename(src, dst)` on the set of existing paths: `src` itself and
every path below it are rebased under `dst`. -/
def renamePath (fs : List String) (src dst : String) : List String :=
  fs.map (fun p =>
    if p = src then dst
    else if (src ++ "/").toList.isPrefixOf p.toList then
      dst ++ strDropChars p src.length
    else p)

/-- Outcome of the extraction attempts for one downloaded archive: whether
`extractall` from the temporary file succeeds, the paths (relative to the
target parent directory) a successful extraction materialises, the paths a
failed first attempt leaves behind, and whether the in-memory fallback
extraction (zip only) succeeds. -/
structure ExtractOutcome where
  firstOk : Bool
  paths : List String
  leftoverPaths : List String
  secondOk : Bool

/-- `download_files(source_url_root, target_dir, source_filenames)`, loop
part: each file is fetched only if `target_dir/filename` does not already
exist, and is stored at `target_dir/filename`. -/
def downloadFilesLoop (root dir : String) :
    List String → List String → List String × List Effect
  | fs, [] => (fs, [])
  | fs, f :: rest =>
      if fs.contains (pj dir f) then downloadFilesLoop root dir fs rest
      else
        let r := downloadFilesLoop root dir (pj dir f :: fs) rest
        (r.1, Effect.retrieve (root ++ "/" ++ f) (pj dir f) :: r.2)

/-- `download_files`: `ensure_directory_exists(target_dir)` then the
per-file download loop. -/
def download_files (fs : List String) (source_url_root target_dir : String)
    (source_filenames : List String) : List String × List Effect :=
  let r := downloadFilesLoop source_url_root target_dir fs source_filenames
  (r.1, Effect.ensureDir target_dir :: r.2)

/-- `download_and_unzip_files(source_url, target_parent_dir, zip_root_name,
target_root_name)`: skip everything when the target path already exists;
otherwise fetch to `TMP_UNZIP_PATH`, extract (with the user-agent fallback
re-fetch on failure, removing the temporary file in the `except` block),
remove the temporary file on the success path, and rename the extracted
root folder. -/
def download_and_unzip_files (oc : ExtractOutcome) (fs : List String)
    (source_url target_parent_dir zip_root_name target_root_name : String) :
    Except PyErr (List String) × List Effect :=
  if fs.contains (pj target_parent_dir target_root_name) then (.ok fs, [])
  else
    let fs1 := addPath fs TMP_UNZIP_PATH
    if oc.firstOk then
      let fs2 := addPaths fs1 (oc.paths.map (pj target_parent_dir))
      let fs3 := removePath fs2 TMP_UNZIP_PATH
      let fs4 := renamePath fs3 (pj target_parent_dir zip_root_name)
        (pj target_parent_dir target_root_name)
      (.ok fs4,
       [Effect.ensureDir target_parent_dir,
        Effect.retrieve source_url TMP_UNZIP_PATH,
        Effect.removeFile TMP_UNZIP_PATH,
        Effect.rename (pj target_parent_dir zip_root_name)
          (pj target_parent_dir target_root_name)])
    else
      let fs2 := addPaths fs1 (oc.leftoverPaths.map (pj target_parent_dir))
      let cleanup := fs2.contains TMP_UNZIP_PATH
      let fs3 := if cleanup then removePath fs2 TMP_UNZIP_PATH else fs2
      let tr0 :=
        [Effect.ensureDir target_parent_dir,
         Effect.retrieve source_url TMP_UNZIP_PATH] ++
        (if cleanup then [Effect.removeFile TMP_UNZIP_PATH] else []) ++
        [Effect.uaFetch source_url]
      if oc.secondOk then
        let fs4 := addPaths fs3 (oc.paths.map (pj target_parent_dir))
        let fs5 := renamePath fs4 (pj target_parent_dir zip_root_name)
          (pj target_parent_dir target_root_name)
        (.ok fs5,
         tr0 ++ [Effect.rename (pj target_parent_dir zip_root_name)
           (pj target_parent_dir target_root_name)])
      else (.error (.exn "BadZipFile"), tr0)

/-- `download_and_untar_files`: same shape as the zip fetcher, but with no
`try`/`except` around the extraction — a failed extraction propagates and
the temporary file is NOT removed. -/
def download_and_untar_files (oc : ExtractOutcome) (fs : List String)
    (source_url target_parent_dir tar_root_name target_root_name : String) :
    Except PyErr (List String) × List Effect :=
  if fs.contains (pj target_parent_dir target_root_name) then (.ok fs, [])
  else
    let fs1 := addPath fs TMP_UNZIP_PATH
    if oc.firstOk then
      let fs2 := addPaths fs1 (oc.paths.map (pj target_parent_dir))
      let fs3 := removePath fs2 TMP_UNZIP_PATH
      let fs4 := renamePath fs3 (pj target_parent_dir tar_root_name)
        (pj target_parent_dir target_root_name)
      (.ok fs4,
       [Effect.ensureDir target_parent_dir,
        Effect.retrieve source_url TMP_UNZIP_PATH,
        Effect.removeFile TMP_UNZIP_PATH,
        Effect.rename (pj target_parent_dir tar_root_name)
          (pj target_parent_dir target_root_name)])
    else
      (.error (.exn "ReadError"),
       [Effect.ensureDir target_parent_dir,
        Effect.retrieve source_url TMP_UNZIP_PATH])

/-! ## The orchestrator `download_all_dependencies` -/

/-- Sequence an `Except` computation into a result/trace pair: an error
stops the run with no further effects. -/
def bindPair (x : Except PyErr String)
    (k : String → Except PyErr (List String) × List Effect) :
    Except PyErr (List String) × List Effect :=
  match x with
  | .error e => (.error e, [])
  | .ok v => k v

/-- `bindPair` for list-valued lookups. -/
def bindPairL (x : Except PyErr (List String))
    (k : List String → Except PyErr (List String) × List Effect) :
    Except PyErr (List String) × List Effect :=
  match x with
  | .error e => (.error e, [])
  | .ok v => k v

/-- `TARGET_DOWNLOAD_DIRS[data]` inside the orchestrator: `KeyError` on an
unknown category. -/
def bindPairD (x : Option String)
    (k : String → Except PyErr (List String) × List Effect) :
    Except PyErr (List String) × List Effect :=
  match x with
  | none => (.error (.exn "KeyError"), [])
  | some v => k v

/-- Lines 385-389: `rootDir` when present, else `rootDirPrefix + version`. -/
def zipRootName (d : DependencyDict) (rev : String) : Except PyErr String :=
  if (keysOf d).contains "rootDir" then getStr d "rootDir"
  else (getStr d "rootDirPrefix").map (fun rp => rp ++ rev)

/-- Lines 391-396: `targetDir` when present, else
`targetDirPrefix + version`. -/
def zipTargetName (d : DependencyDict) (rev : String) : Except PyErr String :=
  if (keysOf d).contains "targetDir" then getStr d "targetDir"
  else (getStr d "targetDirPrefix").map (fun tp => tp ++ rev)

/-- The body of the orchestrator loop for one entry (lines 373-409):
look up version, url and downloadFormat, then dispatch on the format to the
matching fetcher with the resolved root/target names. -/
def processEntry (ex : String → ExtractOutcome) (fs : List String)
    (cat : String) (d : DependencyDict) :
    Except PyErr (List String) × List Effect :=
  bindPair (getStr d "version") (fun rev =>
  bindPair (getStr d "url") (fun url =>
  bindPair (getStr d "downloadFormat") (fun fmt =>
  if fmt = "files" then
    bindPairL (getList d "files") (fun fls =>
    bindPair (getStr d "targetDirPrefix") (fun tp =>
    bindPairD (TARGET_DOWNLOAD_DIRS cat) (fun dir =>
    let r := download_files fs url (pj dir (tp ++ rev)) fls
    (.ok r.1, r.2))))
  else if fmt = "zip" then
    bindPair (zipRootName d rev) (fun zr =>
    bindPair (zipTargetName d rev) (fun zt =>
    bindPairD (TARGET_DOWNLOAD_DIRS cat) (fun dir =>
    download_and_unzip_files (ex url) fs url dir zr zt)))
  else if fmt = "tar" then
    bindPair (getStr d "tarRootDirPrefix") (fun trp =>
    bindPair (getStr d "targetDirPrefix") (fun tp =>
    bindPairD (TARGET_DOWNLOAD_DIRS cat) (fun dir =>
    download_and_untar_files (ex url) fs url dir (trp ++ rev) (tp ++ rev))))
  else (.ok fs, []))))

/-- The orchestrator loop over one category's entries, threading the
filesystem and accumulating the effect trace. -/
def processCategory (ex : String → ExtractOutcome) (fs : List String)
    (cat : String) :
    List (String × DependencyDict) → Except PyErr (List String) × List Effect
  | [] => (.ok fs, [])
  | (_, d) :: rest =>
      match processEntry ex fs cat d with
      | (.ok fs', tr) =>
          let r := processCategory ex fs' cat rest
          (r.1, tr ++ r.2)
      | (.error e, tr) => (.error e, tr)

/-- The orchestrator loop over all categories. -/
def processAll (ex : String → ExtractOutcome) (fs : List String) :
    Manifest → Except PyErr (List String) × List Effect
  | [] => (.ok fs, [])
  | (cat, es) :: rest =>
      match processCategory ex fs cat es with
      | (.ok fs', tr) =>
          let r := processAll ex fs' rest
          (r.1, tr ++ r.2)
      | (.error e, tr) => (.error e, tr)

/-- `download_all_dependencies(filepath)`: validate the whole manifest
first; only if validation returns normally is any entry processed. -/
def download_all_dependencies (ex : String → ExtractOutcome)
    (fs : List String) (m : Manifest) :
    Except PyErr (List String) × List Effect :=
  match validate_dependencies m with
  | .error e => (.error e, [])
  | .ok _ => processAll ex fs m

/-! ## Helper lemmas about the validator -/

theorem checkMandatory_ok_iff (mks keys : List String) :
    checkMandatory mks keys = .ok () ↔ ∀ k ∈ mks, keys.contains k = true := by
  induction mks with
  | nil => exact ⟨fun _ k hk => absurd hk (List.not_mem_nil k), fun _ => rfl⟩
  | cons k rest ih =>
      unfold checkMandatory
      by_cases h : keys.contains k = true
      · rw [if_pos h]
        constructor
        · intro hok q hq
          rcases List.mem_cons.1 hq with rfl | hq'
          · exact h
          · exact ih.1 hok q hq'
        · intro hall
          exact ih.2 (fun q hq => hall q (List.mem_cons_of_mem _ hq))
      · rw [if_neg h]
        constructor
        · intro hok; cases hok
        · intro hall
          exact absurd (hall k (List.mem_cons_self _ _)) h

theorem checkMandatory_cases (mks keys : List String) :
    checkMandatory mks keys = .ok () ∨
      checkMandatory mks keys = .error (.exited 1) := by
  induction mks with
  | nil => exact Or.inl rfl
  | cons k rest ih =>
      unfold checkMandatory
      by_cases h : keys.contains k = true
      · rw [if_pos h]; exact ih
      · rw [if_neg h]; exact Or.inr rfl

theorem checkMandatory_err_of (mks keys : List String) (k : String)
    (hk : k ∈ mks) (hc : keys.contains k = false) :
    checkMandatory mks keys = .error (.exited 1) := by
  rcases checkMandatory_cases mks keys with h | h
  · have h2 := (checkMandatory_ok_iff mks keys).1 h k hk
    rw [hc] at h2
    exact Bool.noConfusion h2
  · exact h

theorem checkPairs_ok_iff (ps : List (List String)) (keys : List String) :
    checkPairs ps keys = .ok () ↔
      ∀ p ∈ ps, (p.filter (fun k => keys.contains k)).length = 1 := by
  induction ps with
  | nil => exact ⟨fun _ p hp => absurd hp (List.not_mem_nil p), fun _ => rfl⟩
  | cons p rest ih =>
      unfold checkPairs
      by_cases h : (p.filter (fun k => keys.contains k)).length = 1
      · rw [if_pos h]
        constructor
        · intro hok q hq
          rcases List.mem_cons.1 hq with rfl | hq'
          · exact h
          · exact ih.1 hok q hq'
        · intro hall
          exact ih.2 (fun q hq => hall q (List.mem_cons_of_mem _ hq))
      · rw [if_neg h]
        constructor
        · intro hok; cases hok
        · intro hall
          exact absurd (hall p (List.mem_cons_self _ _)) h

theorem checkPairs_cases (ps : List (List String)) (keys : List String) :
    checkPairs ps keys = .ok () ∨
      checkPairs ps keys = .error (.exited 1) := by
  induction ps with
  | nil => exact Or.inl rfl
  | cons p rest ih =>
      unfold checkPairs
      by_cases h : (p.filter (fun k => keys.contains k)).length = 1
      · rw [if_pos h]; exact ih
      · rw [if_neg h]; exact Or.inr rfl

theorem checkPairs_err_of (ps : List (List String)) (keys : List String)
    (p : List String) (hp : p ∈ ps)
    (h1 : (p.filter (fun k => keys.contains k)).length ≠ 1) :
    checkPairs ps keys = .error (.exited 1) := by
  rcases checkPairs_cases ps keys with h | h
  · exact absurd ((checkPairs_ok_iff ps keys).1 h p hp) h1
  · exact h

theorem test_err_code (ty : DownloadFormatType) (d : DependencyDict)
    (e : PyErr) (h : test_dependencies_syntax ty d = .error e) :
    pyExitCode e = 1 := by
  unfold test_dependencies_syntax at h
  rcases checkMandatory_cases (mandatoryKeys ty) (keysOf d) with h1 | h1 <;>
    simp only [h1] at h
  · rcases checkPairs_cases (optionalKeyPairs ty) (keysOf d) with h2 | h2 <;>
      simp only [h2] at h
    · cases hv : lookupVal d "url" <;> simp only [hv] at h
      · cases h; rfl
      · rename_i v
        cases v <;> simp only at h
        · rename_i u
          by_cases hz : urlSyntaxFails ty (stripFragment u) = true <;>
            simp [hz] at h
          cases h; rfl
        · cases h; rfl
    · cases h; rfl
  · cases h; rfl

theorem validateEntry_err_code (d : DependencyDict) (e : PyErr)
    (h : validateEntry d = .error e) : pyExitCode e = 1 := by
  unfold validateEntry at h
  cases hv : lookupVal d "downloadFormat" <;> simp only [hv] at h
  · cases h; rfl
  · rename_i v
    cases v <;> simp only at h
    · rename_i s
      cases hp : parseFormat? s <;> simp only [hp] at h
      · cases h; rfl
      · exact test_err_code _ _ _ h
    · cases h; rfl

theorem validateCategory_err_code (es : List (String × DependencyDict))
    (e : PyErr) (h : validateCategory es = .error e) : pyExitCode e = 1 := by
  induction es with
  | nil => cases h
  | cons p rest ih =>
      obtain ⟨n, d⟩ := p
      unfold validateCategory at h
      cases he : validateEntry d <;> simp only [he] at h
      · cases h; exact validateEntry_err_code d _ he
      · exact ih h

theorem validate_err_code (m : Manifest) (e : PyErr)
    (h : validate_dependencies m = .error e) : pyExitCode e = 1 := by
  induction m with
  | nil => cases h
  | cons c rest ih =>
      obtain ⟨n, es⟩ := c
      unfold validate_dependencies at h
      cases hc : validateCategory es <;> simp only [hc] at h
      · cases h; exact validateCategory_err_code es _ hc
      · exact ih h

theorem validateCategory_ok_of (es : List (String × DependencyDict))
    (h : validateCategory es = .ok ()) :
    ∀ p ∈ es, validateEntry p.2 = .ok () := by
  induction es with
  | nil => intro p hp; cases hp
  | cons q rest ih =>
      obtain ⟨n, d⟩ := q
      unfold validateCategory at h
      cases he : validateEntry d <;> simp only [he] at h
      · cases h
      · rename_i u
        cases u
        intro p hp
        rcases List.mem_cons.1 hp with rfl | hp'
        · exact he
        · exact ih h p hp'

theorem validate_ok_of (m : Manifest)
    (h : validate_dependencies m = .ok ()) :
    ∀ d : DependencyDict, entryMem d m → validateEntry d = .ok () := by
  induction m with
  | nil => intro d hd; rcases hd with ⟨c, hc, _⟩; cases hc
  | cons c rest ih =>
      obtain ⟨n, es⟩ := c
      unfold validate_dependencies at h
      cases hc : validateCategory es <;> simp only [hc] at h
      · cases h
      · rename_i u
        cases u
        intro d hd
        rcases hd with ⟨c', hc', p, hp, hpd⟩
        rcases List.mem_cons.1 hc' with rfl | hmem
        · have := validateCategory_ok_of es hc p hp
          rwa [hpd] at this
        · exact ih h d ⟨c', hmem, p, hp, hpd⟩

/-! ## Helper lemmas about the filesystem model -/

theorem addPath_contains_self (fs : List String) (p : String) :
    (addPath fs p).contains p = true := by
  unfold addPath
  by_cases h : fs.contains p = true
  · rw [if_pos h]; exact h
  · rw [if_neg h]
    simp [List.contains_cons]

theorem addPath_contains_mono (fs : List String) (p q : String)
    (h : fs.contains q = true) : (addPath fs p).contains q = true := by
  unfold addPath
  by_cases hc : fs.contains p = true
  · rw [if_pos hc]; exact h
  · rw [if_neg hc, List.contains_cons, h, Bool.or_true]

theorem addPaths_contains_mono (ps : List String) (fs : List String)
    (q : String) (h : fs.contains q = true) :
    (addPaths fs ps).contains q = true := by
  induction ps generalizing fs with
  | nil => exact h
  | cons p rest ih => exact ih (addPath fs p) (addPath_contains_mono fs p q h)

theorem downloadFilesLoop_eq (root dir : String) (files : List String) :
    ∀ fs : List String, (files.map (pj dir)).Nodup →
    downloadFilesLoop root dir fs files =
      (((files.filter (fun f => !(fs.contains (pj dir f)))).map
          (pj dir)).reverse ++ fs,
       (files.filter (fun f => !(fs.contains (pj dir f)))).map
         (fun f => Effect.retrieve (root ++ "/" ++ f) (pj dir f))) := by
  induction files with
  | nil => intro fs _; rfl
  | cons f rest ih =>
      intro fs hnd
      rw [List.map_cons, List.nodup_cons] at hnd
      obtain ⟨hf, hrest⟩ := hnd
      unfold downloadFilesLoop
      by_cases hc : fs.contains (pj dir f) = true
      · rw [if_pos hc, ih fs hrest]
        have hpf : (!(fs.contains (pj dir f))) = false := by rw [hc]; rfl
        rw [@List.filter_cons_of_neg String
          (fun g => !(fs.contains (pj dir g))) f rest
          (by simp only [Bool.not_eq_true]; simpa using hc)]
      · rw [if_neg hc]
        rw [Bool.not_eq_true] at hc
        have hpf : (!(fs.contains (pj dir f))) = true := by rw [hc]; rfl
        have hshift :
            rest.filter (fun g => !((pj dir f :: fs).contains (pj dir g))) =
              rest.filter (fun g => !(fs.contains (pj dir g))) := by
          refine List.filter_congr (fun g hg => ?_)
          have hne : (pj dir g == pj dir f) = false := by
            refine beq_eq_false_iff_ne.2 (fun he => ?_)
            exact hf (he ▸ List.mem_map_of_mem (pj dir) hg)
          rw [List.contains_cons, hne, Bool.false_or]
        rw [ih (pj dir f :: fs) hrest, hshift,
          @List.filter_cons_of_pos String
            (fun g => !(fs.contains (pj dir g))) f rest hpf,
          List.map_cons, List.map_cons,
          List.reverse_cons, List.append_assoc, List.singleton_append]

/-! ## String helper lemmas -/

theorem stripFragment_append (base frag : String)
    (hf : frag.toList.contains '#' = false) :
    stripFragment (base ++ "#" ++ frag) = base := by
  have hdata : (base ++ "#" ++ frag).toList =
      base.toList ++ '#' :: frag.toList := by
    show (base ++ "#" ++ frag).data = base.data ++ '#' :: frag.data
    rw [String.data_append, String.data_append, List.append_assoc]
    rfl
  have hnotmem : '#' ∉ frag.toList := by
    intro hm
    have h2 : frag.toList.elem '#' = true := by
      rw [List.elem_eq_mem]
      exact decide_eq_true hm
    rw [show frag.toList.contains '#' = frag.toList.elem '#' from rfl, h2]
      at hf
    exact Bool.noConfusion hf
  have hcond : (base ++ "#" ++ frag).toList.contains '#' = true := by
    show (base ++ "#" ++ frag).toList.elem '#' = true
    rw [hdata, List.elem_eq_mem]
    exact decide_eq_true
      (List.mem_append_right _ (List.mem_cons_self _ _))
  unfold stripFragment
  rw [if_pos hcond]
  unfold rpartitionBefore
  rw [hdata, List.reverse_append, List.reverse_cons, List.append_assoc,
    List.singleton_append]
  have hdw : (frag.toList.reverse ++ '#' :: base.toList.reverse).dropWhile
        (fun x => !(x == '#')) =
      ('#' :: base.toList.reverse).dropWhile (fun x => !(x == '#')) :=
    List.dropWhile_append_of_pos (fun a ha => by
      have ham := List.mem_reverse.1 ha
      have hne : a ≠ '#' := fun heq => hnotmem (heq ▸ ham)
      simp [hne])
  rw [hdw, List.dropWhile_cons, if_neg (by simp),
    show ('#' :: base.toList.reverse).drop 1 = base.toList.reverse from rfl,
    List.reverse_reverse]
  rfl

/-- If a string ends in ".zip" it cannot also end in ".tar.gz". -/
theorem ends_zip_not_tar (u : String) (h : endsWithS u ".zip" = true) :
    endsWithS u ".tar.gz" = false := by
  by_contra hne
  rw [Bool.not_eq_false] at hne
  have hz : ".zip".toList <:+ u.toList := by
    have h2 := h
    unfold endsWithS at h2
    rwa [List.isSuffixOf_iff_suffix] at h2
  have ht : ".tar.gz".toList <:+ u.toList := by
    have h2 := hne
    unfold endsWithS at h2
    rwa [List.isSuffixOf_iff_suffix] at h2
  rcases List.suffix_or_suffix_of_suffix hz ht with hc | hc
  · exact absurd hc (by decide)
  · exact absurd hc (by decide)

/-! ## Decomposition of the URL/format consistency check -/

theorem urlSyntaxFails_files (u : String) :
    urlSyntaxFails DownloadFormatType.files u =
      (endsWithS u ".zip" || endsWithS u ".tar.gz") := by
  unfold urlSyntaxFails isZipFormat isTarFormat
  simp

theorem urlSyntaxFails_zip (u : String) :
    urlSyntaxFails DownloadFormatType.zip u =
      (!(endsWithS u ".zip") || endsWithS u ".tar.gz") := by
  unfold urlSyntaxFails isZipFormat isTarFormat
  simp

theorem urlSyntaxFails_tar (u : String) :
    urlSyntaxFails DownloadFormatType.tar u =
      (endsWithS u ".zip" || !(endsWithS u ".tar.gz")) := by
  unfold urlSyntaxFails isZipFormat isTarFormat
  simp

theorem test_syntax_ok_iff (ty : DownloadFormatType) (d : DependencyDict)
    (u : String) (hu : lookupVal d "url" = some (.str u)) :
    test_dependencies_syntax ty d = .ok () ↔
      (checkMandatory (mandatoryKeys ty) (keysOf d) = .ok () ∧
       checkPairs (optionalKeyPairs ty) (keysOf d) = .ok () ∧
       urlSyntaxFails ty (stripFragment u) = false) := by
  unfold test_dependencies_syntax
  rcases checkMandatory_cases (mandatoryKeys ty) (keysOf d) with h1 | h1 <;>
    simp only [h1]
  · rcases checkPairs_cases (optionalKeyPairs ty) (keysOf d) with h2 | h2 <;>
      simp only [h2]
    · simp only [hu]
      by_cases hz : urlSyntaxFails ty (stripFragment u) = true
      · simp [hz]
      · rw [Bool.not_eq_true] at hz
        simp [hz]
    · simp
  · simp

theorem test_syntax_exit_of_urlFails (ty : DownloadFormatType)
    (d : DependencyDict) (u : String)
    (hu : lookupVal d "url" = some (.str u))
    (hz : urlSyntaxFails ty (stripFragment u) = true) :
    test_dependencies_syntax ty d = .error (.exited 1) := by
  unfold test_dependencies_syntax
  rcases checkMandatory_cases (mandatoryKeys ty) (keysOf d) with h1 | h1 <;>
    simp only [h1]
  rcases checkPairs_cases (optionalKeyPairs ty) (keysOf d) with h2 | h2 <;>
    simp only [h2]
  simp only [hu]
  rw [if_pos hz]

/-! ## The claims -/

/-- A `files`-format entry carrying every mandatory key, whose URL ends in
".zip". -/
def filesEntryZipUrl : DependencyDict :=
  [("version", .str "1"), ("url", .str "https://x/a.zip"),
   ("files", .strList ["a"]), ("targetDirPrefix", .str "p-"),
   ("downloadFormat", .str "files")]

/-- C1 counterexample: a dependency entry with `downloadFormat = "files"`
that has every mandatory key is nevertheless rejected by the URL-suffix
consistency check (the process exits with status 1) because its URL ends in
".zip"; the check is NOT a no-op for the "files" format. -/
theorem c1_counterexample :
    ((mandatoryKeys DownloadFormatType.files).all
        (fun k => (keysOf filesEntryZipUrl).contains k) = true) ∧
      test_dependencies_syntax DownloadFormatType.files filesEntryZipUrl =
        .error (.exited 1) :=
  ⟨rfl, rfl⟩

/-- C1 (amended): for a dependency entry with `downloadFormat = "files"`
that has all mandatory keys and a string URL, validation succeeds if and
only if the fragment-stripped URL ends in neither ".zip" nor ".tar.gz"
(rather than succeeding for every URL suffix). -/
theorem c1_files_url_suffix_check (d : DependencyDict) (u : String)
    (hm : ∀ k ∈ mandatoryKeys DownloadFormatType.files,
      (keysOf d).contains k = true)
    (hu : lookupVal d "url" = some (.str u)) :
    test_dependencies_syntax DownloadFormatType.files d = .ok () ↔
      (endsWithS (stripFragment u) ".zip" = false ∧
       endsWithS (stripFragment u) ".tar.gz" = false) := by
  rw [test_syntax_ok_iff DownloadFormatType.files d u hu,
    urlSyntaxFails_files]
  have h1 : checkMandatory (mandatoryKeys DownloadFormatType.files)
      (keysOf d) = .ok () := (checkMandatory_ok_iff _ _).2 hm
  have h2 : checkPairs (optionalKeyPairs DownloadFormatType.files)
      (keysOf d) = .ok () := rfl
  rw [h1, h2]
  simp

/-- A `files`-format entry carrying every mandatory key, whose URL has no
archive suffix. -/
def filesEntryPlainUrl : DependencyDict :=
  [("version", .str "1"), ("url", .str "https://x/a"),
   ("files", .strList ["a"]), ("targetDirPrefix", .str "p-"),
   ("downloadFormat", .str "files")]

/-- Witness for C1 (amended) at a concrete entry. -/
theorem c1_witness :
    test_dependencies_syntax DownloadFormatType.files filesEntryPlainUrl =
      .ok () :=
  (c1_files_url_suffix_check filesEntryPlainUrl "https://x/a" (by decide)
    rfl).2 ⟨rfl, rfl⟩

/-- A zip entry whose URL carries a '#'-fragment after ".zip". -/
def zipEntryFragment : DependencyDict :=
  [("version", .str "1"), ("url", .str "https://x/pkg.zip#abc"),
   ("downloadFormat", .str "zip"), ("rootDir", .str "a"),
   ("targetDir", .str "b")]

/-- C2 counterexample: a zip entry whose url STRING does not end in ".zip"
(it ends in "#abc") nevertheless passes validation, because the check is
applied to the fragment-stripped URL. -/
theorem c2_counterexample :
    endsWithS "https://x/pkg.zip#abc" ".zip" = false ∧
      test_dependencies_syntax DownloadFormatType.zip zipEntryFragment =
        .ok () :=
  ⟨rfl, rfl⟩

/-- C2 (amended): for every entry with `downloadFormat = "zip"` whose
FRAGMENT-STRIPPED url does not end in ".zip", and every entry with
`downloadFormat = "tar"` whose fragment-stripped url does not end in
".tar.gz", `test_dependencies_syntax` terminates the process with
`sys.exit(1)`. -/
theorem c2_suffix_mismatch_fails (d : DependencyDict) (u : String)
    (hu : lookupVal d "url" = some (.str u)) :
    (endsWithS (stripFragment u) ".zip" = false →
      test_dependencies_syntax DownloadFormatType.zip d =
        .error (.exited 1)) ∧
    (endsWithS (stripFragment u) ".tar.gz" = false →
      test_dependencies_syntax DownloadFormatType.tar d =
        .error (.exited 1)) := by
  constructor
  · intro hez
    refine test_syntax_exit_of_urlFails _ d u hu ?_
    rw [urlSyntaxFails_zip, hez]
    rfl
  · intro het
    refine test_syntax_exit_of_urlFails _ d u hu ?_
    rw [urlSyntaxFails_tar, het]
    simp

/-- A zip entry whose URL does not end in ".zip". -/
def zipEntryBadUrl : DependencyDict :=
  [("version", .str "1"), ("url", .str "https://x/pkg.txt"),
   ("downloadFormat", .str "zip"), ("rootDir", .str "a"),
   ("targetDir", .str "b")]

/-- Witness for C2 (amended) at a concrete entry. -/
theorem c2_witness :
    test_dependencies_syntax DownloadFormatType.zip zipEntryBadUrl =
      .error (.exited 1) :=
  (c2_suffix_mismatch_fails zipEntryBadUrl "https://x/pkg.txt" rfl).1 rfl

/-- Shared helper: if some entry of the manifest fails validation, the
whole run terminates abnormally (exit status 1) with an empty effect
trace. -/
theorem download_all_error_of_bad_entry (ex : String → ExtractOutcome)
    (fs : List String) (m : Manifest) (d : DependencyDict) (e0 : PyErr)
    (hmem : entryMem d m) (hbad : validateEntry d = .error e0) :
    ∃ e : PyErr, validate_dependencies m = .error e ∧ pyExitCode e = 1 ∧
      download_all_dependencies ex fs m = (.error e, []) := by
  have hne : validate_dependencies m ≠ .ok () := by
    intro hok
    have h2 := validate_ok_of m hok d hmem
    rw [hbad] at h2
    exact Except.noConfusion h2
  cases hv : validate_dependencies m with
  | ok u => cases u; exact absurd hv hne
  | error e =>
      refine ⟨e, rfl, validate_err_code m e hv, ?_⟩
      unfold download_all_dependencies
      rw [hv]

/-- C3: an entry that has a parseable declared downloadFormat but is
missing one of that format's mandatory keys makes validation exit with
status 1, and `download_all_dependencies` performs no download at all for
any entry of the manifest: its effect trace is empty. -/
theorem c3_missing_mandatory_no_download (ex : String → ExtractOutcome)
    (fs : List String) (m : Manifest) (d : DependencyDict) (s : String)
    (ty : DownloadFormatType) (k : String)
    (hmem : entryMem d m)
    (hfmt : lookupVal d "downloadFormat" = some (.str s))
    (hty : parseFormat? s = some ty)
    (hk : k ∈ mandatoryKeys ty)
    (hmiss : (keysOf d).contains k = false) :
    ∃ e : PyErr, validate_dependencies m = .error e ∧ pyExitCode e = 1 ∧
      download_all_dependencies ex fs m = (.error e, []) := by
  have hbad : validateEntry d = .error (.exited 1) := by
    unfold validateEntry
    simp only [hfmt, hty]
    unfold test_dependencies_syntax
    rw [checkMandatory_err_of (mandatoryKeys ty) (keysOf d) k hk hmiss]
  exact download_all_error_of_bad_entry ex fs m d (.exited 1) hmem hbad

/-- A zip entry missing the mandatory "version" key. -/
def zipEntryNoVersion : DependencyDict :=
  [("url", .str "https://x/a.zip"), ("downloadFormat", .str "zip"),
   ("rootDir", .str "a"), ("targetDir", .str "b")]

/-- A one-category manifest holding the entry missing "version". -/
def manifestMissingKey : Manifest :=
  [("proto", [("dep", zipEntryNoVersion)])]

/-- A trivial extraction oracle for witnesses. -/
def happyOracle : String → ExtractOutcome :=
  fun _ => ⟨true, [], [], true⟩

/-- Witness for C3 at a concrete manifest. -/
theorem c3_witness :
    ∃ e : PyErr,
      validate_dependencies manifestMissingKey = .error e ∧
        pyExitCode e = 1 ∧
        download_all_dependencies happyOracle [] manifestMissingKey =
          (.error e, []) :=
  c3_missing_mandatory_no_download happyOracle [] manifestMissingKey
    zipEntryNoVersion "zip" DownloadFormatType.zip "version"
    ⟨("proto", [("dep", zipEntryNoVersion)]), List.mem_singleton.2 rfl,
      ("dep", zipEntryNoVersion), List.mem_singleton.2 rfl, rfl⟩
    rfl rfl (by decide) rfl

/-- C4: for every format and entry, if some declared optional key pair has
a number of present members different from one (both or neither present),
validation exits with status 1; and when every declared pair has exactly
one member present, the optional-pair check itself passes. -/
theorem c4_optional_pair_exactly_one (ty : DownloadFormatType)
    (d : DependencyDict) :
    ((∃ p ∈ optionalKeyPairs ty,
        (p.filter (fun k => (keysOf d).contains k)).length ≠ 1) →
      test_dependencies_syntax ty d = .error (.exited 1)) ∧
    ((∀ p ∈ optionalKeyPairs ty,
        (p.filter (fun k => (keysOf d).contains k)).length = 1) →
      checkPairs (optionalKeyPairs ty) (keysOf d) = .ok ()) := by
  constructor
  · rintro ⟨p, hp, hlen⟩
    unfold test_dependencies_syntax
    rcases checkMandatory_cases (mandatoryKeys ty) (keysOf d) with h1 | h1 <;>
      simp only [h1]
    rw [checkPairs_err_of (optionalKeyPairs ty) (keysOf d) p hp hlen]
  · exact (checkPairs_ok_iff _ _).2

/-- A zip entry declaring BOTH members of the [rootDir, rootDirPrefix]
pair. -/
def zipEntryBothRoot : DependencyDict :=
  [("version", .str "1"), ("url", .str "https://x/a.zip"),
   ("downloadFormat", .str "zip"), ("rootDir", .str "a"),
   ("rootDirPrefix", .str "a-"), ("targetDir", .str "b")]

/-- Witness for C4 at a concrete entry. -/
theorem c4_witness :
    test_dependencies_syntax DownloadFormatType.zip zipEntryBothRoot =
      .error (.exited 1) :=
  (c4_optional_pair_exactly_one DownloadFormatType.zip zipEntryBothRoot).1
    ⟨["rootDir", "rootDirPrefix"], by decide, by decide⟩

/-- C8: the orchestrator validates the entire manifest before fetching
anything: if ANY entry of ANY category fails validation, the process
terminates during validation (abnormally, exit status 1) and the effect
trace of `download_all_dependencies` is empty — no download of any entry,
well-formed ones included, is attempted. -/
theorem c8_validate_before_fetch (ex : String → ExtractOutcome)
    (fs : List String) (m : Manifest) (d : DependencyDict) (e0 : PyErr)
    (hmem : entryMem d m) (hbad : validateEntry d = .error e0) :
    ∃ e : PyErr, validate_dependencies m = .error e ∧ pyExitCode e = 1 ∧
      download_all_dependencies ex fs m = (.error e, []) :=
  download_all_error_of_bad_entry ex fs m d e0 hmem hbad

/-- An entry with no downloadFormat key at all. -/
def entryNoFormat : DependencyDict :=
  [("version", .str "1"), ("url", .str "https://x/a")]

/-- A zip entry that is completely well-formed. -/
def zipEntryGood : DependencyDict :=
  [("version", .str "2"), ("url", .str "https://x/b.zip"),
   ("downloadFormat", .str "zip"), ("rootDir", .str "b"),
   ("targetDir", .str "b")]

/-- A two-category manifest with a well-formed zip entry first and a
malformed entry (no downloadFormat) second. -/
def manifestOneBadEntry : Manifest :=
  [("proto", [("good", zipEntryGood)]),
   ("frontend", [("bad", entryNoFormat)])]

/-- Witness for C8: even though the first entry is well-formed, nothing at
all is downloaded. -/
theorem c8_witness :
    ∃ e : PyErr,
      validate_dependencies manifestOneBadEntry = .error e ∧
        pyExitCode e = 1 ∧
        download_all_dependencies happyOracle [] manifestOneBadEntry =
          (.error e, []) :=
  c8_validate_before_fetch happyOracle [] manifestOneBadEntry entryNoFormat
    (.exn "downloadFormat not specified")
    ⟨("frontend", [("bad", entryNoFormat)]),
      List.mem_cons_of_mem _ (List.mem_singleton.2 rfl),
      ("bad", entryNoFormat), List.mem_singleton.2 rfl, rfl⟩
    rfl

/-- C5: when `target_parent_dir/target_root_name` already exists, both
`download_and_unzip_files` and `download_and_untar_files` are a complete
no-op: the effect trace is empty (no network call, no file creation, no
removal, no rename) and the filesystem is returned unchanged. -/
theorem c5_skip_when_target_exists (oc : ExtractOutcome) (fs : List String)
    (u tpd rn trn : String) (h : fs.contains (pj tpd trn) = true) :
    download_and_unzip_files oc fs u tpd rn trn = (.ok fs, []) ∧
      download_and_untar_files oc fs u tpd rn trn = (.ok fs, []) := by
  refine ⟨?_, ?_⟩
  · unfold download_and_unzip_files
    rw [if_pos h]
  · unfold download_and_untar_files
    rw [if_pos h]

/-- Witness for C5 at a concrete filesystem. -/
theorem c5_witness :
    download_and_unzip_files ⟨true, ["z"], [], true⟩ [pj "d" "t"]
        "u" "d" "z" "t" = (.ok [pj "d" "t"], []) ∧
      download_and_untar_files ⟨true, ["z"], [], true⟩ [pj "d" "t"]
        "u" "d" "z" "t" = (.ok [pj "d" "t"], []) :=
  c5_skip_when_target_exists ⟨true, ["z"], [], true⟩ [pj "d" "t"]
    "u" "d" "z" "t" rfl

/-- C6: with pairwise-distinct target paths, `download_files` downloads
exactly the files missing from `target_dir` — its effect trace is the
directory creation followed by one retrieval per missing filename (from
`source_url_root/filename` to `target_dir/filename`) and none for a
filename that already exists — and exactly the missing files are added to
the filesystem at `target_dir/filename`. -/
theorem c6_download_files_missing_only (fs : List String)
    (root dir : String) (files : List String)
    (hnd : (files.map (pj dir)).Nodup) :
    download_files fs root dir files =
      (((files.filter (fun f => !(fs.contains (pj dir f)))).map
          (pj dir)).reverse ++ fs,
       Effect.ensureDir dir ::
         (files.filter (fun f => !(fs.contains (pj dir f)))).map
           (fun f => Effect.retrieve (root ++ "/" ++ f) (pj dir f))) := by
  unfold download_files
  rw [downloadFilesLoop_eq root dir files fs hnd]

/-- Witness for C6: "a" already exists, "b" does not; only "b" is
fetched. -/
theorem c6_witness :
    download_files [pj "t" "a"] "r" "t" ["a", "b"] =
      ([pj "t" "b", pj "t" "a"],
       [Effect.ensureDir "t", Effect.retrieve "r/b" "t/b"]) := by
  rw [c6_download_files_missing_only [pj "t" "a"] "r" "t" ["a", "b"]
    (by decide)]
  rfl

/-- C7: in every execution of `download_and_unzip_files` that downloads
the archive (the target path does not exist yet), the temporary archive
file at `TMP_UNZIP_PATH` is removed before the function returns — on the
success path of the first extraction as well as on the user-agent fallback
path, whether or not the fallback extraction itself succeeds. -/
theorem c7_tmp_removed (oc : ExtractOutcome) (fs : List String)
    (u tpd zrn trn : String) (h : fs.contains (pj tpd trn) = false) :
    Effect.removeFile TMP_UNZIP_PATH ∈
      (download_and_unzip_files oc fs u tpd zrn trn).2 := by
  unfold download_and_unzip_files
  rw [if_neg (by rw [h]; exact Bool.false_ne_true)]
  cases hfo : oc.firstOk
  · have hcl : (addPaths (addPath fs TMP_UNZIP_PATH)
        (oc.leftoverPaths.map (pj tpd))).contains TMP_UNZIP_PATH = true :=
      addPaths_contains_mono _ _ _ (addPath_contains_self fs TMP_UNZIP_PATH)
    have hmemtmp : TMP_UNZIP_PATH ∈ addPaths (addPath fs TMP_UNZIP_PATH)
        (oc.leftoverPaths.map (pj tpd)) := by simpa using hcl
    cases hso : oc.secondOk <;>
      simp [hfo, hso, hcl, hmemtmp, List.mem_append]
  · simp [hfo]

/-- Witness for C7 at a concrete call that takes the fallback path and
still fails. -/
theorem c7_witness :
    Effect.removeFile TMP_UNZIP_PATH ∈
      (download_and_unzip_files ⟨false, ["z"], [], false⟩ []
        "u" "d" "z" "t").2 :=
  c7_tmp_removed ⟨false, ["z"], [], false⟩ [] "u" "d" "z" "t" rfl

/-! ## Reduction lemmas for the orchestrator dispatch -/

theorem processEntry_zip (ex : String → ExtractOutcome) (fs : List String)
    (cat : String) (d : DependencyDict) (dir rev url r t : String)
    (hv : getStr d "version" = .ok rev)
    (hu : getStr d "url" = .ok url)
    (hf : getStr d "downloadFormat" = .ok "zip")
    (hzr : zipRootName d rev = .ok r)
    (hzt : zipTargetName d rev = .ok t)
    (hdir : TARGET_DOWNLOAD_DIRS cat = some dir) :
    processEntry ex fs cat d =
      download_and_unzip_files (ex url) fs url dir r t := by
  unfold processEntry
  rw [hv]
  simp only [bindPair]
  rw [hu]
  simp only [bindPair]
  rw [hf]
  simp only [bindPair]
  simp only [String.reduceEq, if_false, if_true]
  rw [hzr]
  simp only [bindPair]
  rw [hzt]
  simp only [bindPair]
  rw [hdir]
  simp only [bindPairD]

theorem processEntry_tar (ex : String → ExtractOutcome) (fs : List String)
    (cat : String) (d : DependencyDict) (dir rev url trp tp : String)
    (hv : getStr d "version" = .ok rev)
    (hu : getStr d "url" = .ok url)
    (hf : getStr d "downloadFormat" = .ok "tar")
    (htrp : getStr d "tarRootDirPrefix" = .ok trp)
    (htp : getStr d "targetDirPrefix" = .ok tp)
    (hdir : TARGET_DOWNLOAD_DIRS cat = some dir) :
    processEntry ex fs cat d =
      download_and_untar_files (ex url) fs url dir (trp ++ rev)
        (tp ++ rev) := by
  unfold processEntry
  rw [hv]
  simp only [bindPair]
  rw [hu]
  simp only [bindPair]
  rw [hf]
  simp only [bindPair]
  simp only [String.reduceEq, if_false, if_true]
  rw [htrp]
  simp only [bindPair]
  rw [htp]
  simp only [bindPair]
  rw [hdir]
  simp only [bindPairD]

theorem processEntry_files (ex : String → ExtractOutcome) (fs : List String)
    (cat : String) (d : DependencyDict) (dir rev url : String)
    (fls : List String) (tp : String)
    (hv : getStr d "version" = .ok rev)
    (hu : getStr d "url" = .ok url)
    (hf : getStr d "downloadFormat" = .ok "files")
    (hfl : getList d "files" = .ok fls)
    (htp : getStr d "targetDirPrefix" = .ok tp)
    (hdir : TARGET_DOWNLOAD_DIRS cat = some dir) :
    processEntry ex fs cat d =
      (.ok (download_files fs url (pj dir (tp ++ rev)) fls).1,
       (download_files fs url (pj dir (tp ++ rev)) fls).2) := by
  unfold processEntry
  rw [hv]
  simp only [bindPair]
  rw [hu]
  simp only [bindPair]
  rw [hf]
  simp only [bindPair]
  simp only [String.reduceEq, if_false, if_true]
  rw [hfl]
  simp only [bindPairL]
  rw [htp]
  simp only [bindPair]
  rw [hdir]
  simp only [bindPairD]

/-- C9: the orchestrator resolves root and target names exactly as the
code does — zip: explicit `rootDir` when present, otherwise
`rootDirPrefix + version`, and INDEPENDENTLY the explicit `targetDir` when
present, otherwise `targetDirPrefix + version` (so mixed entries such as
`rootDir` together with `targetDirPrefix` are covered); tar:
`tarRootDirPrefix + version` and `targetDirPrefix + version`; files:
`targetDirPrefix + version` — and hands the resolved names to the matching
fetcher under the directory mapped from the entry's category. -/
theorem c9_resolution (ex : String → ExtractOutcome) (fs : List String)
    (cat : String) (d : DependencyDict) (dir rev url : String)
    (hdir : TARGET_DOWNLOAD_DIRS cat = some dir)
    (hv : getStr d "version" = .ok rev)
    (hu : getStr d "url" = .ok url) :
    (∀ r t : String, getStr d "downloadFormat" = .ok "zip" →
      (((keysOf d).contains "rootDir" = true ∧
        getStr d "rootDir" = .ok r) ∨
       ((keysOf d).contains "rootDir" = false ∧
        ∃ rp : String, getStr d "rootDirPrefix" = .ok rp ∧
          r = rp ++ rev)) →
      (((keysOf d).contains "targetDir" = true ∧
        getStr d "targetDir" = .ok t) ∨
       ((keysOf d).contains "targetDir" = false ∧
        ∃ tp : String, getStr d "targetDirPrefix" = .ok tp ∧
          t = tp ++ rev)) →
      processEntry ex fs cat d =
        download_and_unzip_files (ex url) fs url dir r t) ∧
    (∀ trp tp : String, getStr d "downloadFormat" = .ok "tar" →
      getStr d "tarRootDirPrefix" = .ok trp →
      getStr d "targetDirPrefix" = .ok tp →
      processEntry ex fs cat d =
        download_and_untar_files (ex url) fs url dir (trp ++ rev)
          (tp ++ rev)) ∧
    (∀ (fls : List String) (tp : String),
      getStr d "downloadFormat" = .ok "files" →
      getList d "files" = .ok fls →
      getStr d "targetDirPrefix" = .ok tp →
      processEntry ex fs cat d =
        (.ok (download_files fs url (pj dir (tp ++ rev)) fls).1,
         (download_files fs url (pj dir (tp ++ rev)) fls).2)) := by
  refine ⟨?_, ?_, ?_⟩
  · intro r t hf hroot htgt
    refine processEntry_zip ex fs cat d dir rev url r t hv hu hf ?_ ?_ hdir
    · unfold zipRootName
      rcases hroot with ⟨hc, hr⟩ | ⟨hc, rp, hrp, hreq⟩
      · rw [if_pos hc]
        exact hr
      · rw [if_neg (by rw [hc]; exact Bool.false_ne_true), hrp, hreq]
        rfl
    · unfold zipTargetName
      rcases htgt with ⟨hc, ht⟩ | ⟨hc, tp, htp, hteq⟩
      · rw [if_pos hc]
        exact ht
      · rw [if_neg (by rw [hc]; exact Bool.false_ne_true), htp, hteq]
        rfl
  · intro trp tp hf htrp htp
    exact processEntry_tar ex fs cat d dir rev url trp tp hv hu hf htrp htp
      hdir
  · intro fls tp hf hfl htp
    exact processEntry_files ex fs cat d dir rev url fls tp hv hu hf hfl htp
      hdir

/-- The dependency entry of the spec's worked example (version "3", both
prefixes "pkg-"). -/
def sampleZipEntry : DependencyDict :=
  [("version", .str "3"), ("url", .str "https://x/pkg-3.zip"),
   ("downloadFormat", .str "zip"), ("rootDirPrefix", .str "pkg-"),
   ("targetDirPrefix", .str "pkg-")]

/-- Witness for C9: the worked example resolves to zip root "pkg-3" and
target "pkg-3" under the "proto" category's directory. -/
theorem c9_witness :
    processEntry happyOracle [] "proto" sampleZipEntry =
      download_and_unzip_files (happyOracle "https://x/pkg-3.zip") []
        "https://x/pkg-3.zip" THIRD_PARTY_DIR "pkg-3" "pkg-3" :=
  (c9_resolution happyOracle [] "proto" sampleZipEntry THIRD_PARTY_DIR "3"
    "https://x/pkg-3.zip" rfl rfl rfl).1 "pkg-3" "pkg-3" rfl
    (Or.inr ⟨rfl, "pkg-", rfl, rfl⟩) (Or.inr ⟨rfl, "pkg-", rfl, rfl⟩)

/-- C10: the validator strips a trailing '#'-fragment before the
URL/format check: `rpartition('#')[0]` keeps exactly the portion before
the LAST '#', and a zip entry whose URL is `<base>#<fragment>` with `base`
ending in ".zip" passes validation (given mandatory keys and well-formed
optional pairs), even though the full URL string need not end in
".zip". -/
theorem c10_fragment_strip :
    (∀ base frag : String, frag.toList.contains '#' = false →
      stripFragment (base ++ "#" ++ frag) = base) ∧
    (∀ (d : DependencyDict) (base frag : String),
      frag.toList.contains '#' = false →
      lookupVal d "url" = some (.str (base ++ "#" ++ frag)) →
      (∀ k ∈ mandatoryKeys DownloadFormatType.zip,
        (keysOf d).contains k = true) →
      (∀ p ∈ optionalKeyPairs DownloadFormatType.zip,
        (p.filter (fun k => (keysOf d).contains k)).length = 1) →
      endsWithS base ".zip" = true →
      test_dependencies_syntax DownloadFormatType.zip d = .ok ()) := by
  refine ⟨stripFragment_append, ?_⟩
  intro d base frag hf hu hm hp hez
  rw [test_syntax_ok_iff DownloadFormatType.zip d (base ++ "#" ++ frag) hu]
  refine ⟨(checkMandatory_ok_iff _ _).2 hm, (checkPairs_ok_iff _ _).2 hp, ?_⟩
  rw [stripFragment_append base frag hf, urlSyntaxFails_zip, hez,
    ends_zip_not_tar base hez]
  rfl

/-- A zip entry whose URL is "<base>.zip#<fragment>". -/
def zipEntryFragOk : DependencyDict :=
  [("version", .str "1"), ("url", .str "https://x/a.zip#v1"),
   ("downloadFormat", .str "zip"), ("rootDir", .str "a"),
   ("targetDir", .str "b")]

/-- Witness for C10 at a concrete entry. -/
theorem c10_witness :
    test_dependencies_syntax DownloadFormatType.zip zipEntryFragOk =
      .ok () :=
  c10_fragment_strip.2 zipEntryFragOk "https://x/a.zip" "v1" rfl rfl
    (by decide) (by decide) rfl

end OppiaDeps
